/-
Verification of the PlanetSimulation physics core (src/main.py).

Shallow embedding: Python floats are modelled as real numbers; Python object
identity is modelled by a numeric `id` tag carried by each body (the source
never defines value equality on bodies, so `self == body` is identity);
in-place mutation is modelled by explicit state passing.  The pygame
rendering shell (draw methods, the event loop) is display-only and out of
scope; only the fields it reads (name, radius, color) are carried as opaque
data.
-/
import Mathlib

noncomputable section

namespace PlanetSim

/-- AU = 149.6e9 m (src/main.py line 7). -/
def AU : ℝ := 149.6e9

/-- Gravitational constant (src/main.py line 8). -/
def G : ℝ := 6.67428e-11

/-- Display scale, pixels per meter: SCALE = 120 / AU (src/main.py line 12). -/
def SCALE : ℝ := 120 / AU

/-- Time step: one day in seconds, 60*60*24 (src/main.py line 13). -/
def TIME_STEP : ℝ := 60 * 60 * 24

/-- Python's math.atan2 y x, modelled as the argument of the complex number
x + y*i (same quadrant conventions, atan2 0 0 = 0 = arg 0). -/
def atan2 (y x : ℝ) : ℝ := Complex.arg ⟨x, y⟩

/-- Python's math.dist p q: Euclidean distance of two points in the plane. -/
def dist2D (p q : ℝ × ℝ) : ℝ := Real.sqrt ((p.1 - q.1) ^ 2 + (p.2 - q.2) ^ 2)

/-- CelestialObject (src/main.py lines 26-41).  The `id` field is not in the
Python constructor: it models Python object identity, used by the
`self == body` check in update_position (line 74). -/
structure CelestialObject where
  id : ℕ
  name : String
  radius : ℝ
  color : ℕ × ℕ × ℕ
  mass : ℝ
  x : ℝ
  y : ℝ
  x_vel : ℝ
  y_vel : ℝ

namespace CelestialObject

/-- CelestialObject.__init__ (src/main.py lines 28-41): stores the given data,
position and velocity defaulting to (0, 0).  There is no validation of any
argument. -/
def init (id : ℕ) (name : String) (radius : ℝ) (color : ℕ × ℕ × ℕ) (mass : ℝ)
    (position : ℝ × ℝ := (0, 0)) (velocity : ℝ × ℝ := (0, 0)) : CelestialObject :=
  ⟨id, name, radius, color, mass, position.1, position.2, velocity.1, velocity.2⟩

/-- set_position (src/main.py lines 43-45). -/
def set_position (self : CelestialObject) (x y : ℝ) : CelestialObject :=
  { self with x := x, y := y }

/-- set_velocity (src/main.py lines 47-49). -/
def set_velocity (self : CelestialObject) (x_vel y_vel : ℝ) : CelestialObject :=
  { self with x_vel := x_vel, y_vel := y_vel }

/-- get_position (src/main.py lines 51-52). -/
def get_position (self : CelestialObject) : ℝ × ℝ := (self.x, self.y)

/-- calculate_distance_vectors (src/main.py lines 54-58). -/
def calculate_distance_vectors (self other_body : CelestialObject) : ℝ × ℝ :=
  (other_body.x - self.x, other_body.y - self.y)

/-- calculate_force_vectors (src/main.py lines 60-69): Newtonian gravity via
magnitude G*m1*m2/d^2 and direction angle atan2. -/
def calculate_force_vectors (self other_body : CelestialObject) : ℝ × ℝ :=
  let d := self.calculate_distance_vectors other_body
  let distance := dist2D self.get_position other_body.get_position
  let force := G * self.mass * other_body.mass / distance ^ 2
  let theta := atan2 d.2 d.1
  (Real.cos theta * force, Real.sin theta * force)

/-- One iteration step of the force-accumulation loop in update_position
(src/main.py lines 73-79): skip when `self == body` (object identity),
otherwise add the pairwise force components. -/
def forceAccum (self : CelestialObject) (acc : ℝ × ℝ) (body : CelestialObject) : ℝ × ℝ :=
  if self.id = body.id then acc
  else (acc.1 + (self.calculate_force_vectors body).1,
        acc.2 + (self.calculate_force_vectors body).2)

/-- The accumulated (total_fx, total_fy) of update_position
(src/main.py lines 72-79). -/
def total_force (self : CelestialObject) (bodies : List CelestialObject) : ℝ × ℝ :=
  bodies.foldl (forceAccum self) (0, 0)

/-- update_position (src/main.py lines 71-85): accumulate the total force,
update velocity by (F/m)*dt, then update position with the new velocity. -/
def update_position (self : CelestialObject) (bodies : List CelestialObject) :
    CelestialObject :=
  let t := total_force self bodies
  let xv := self.x_vel + t.1 / self.mass * TIME_STEP
  let yv := self.y_vel + t.2 / self.mass * TIME_STEP
  { self with x_vel := xv, y_vel := yv,
              x := self.x + xv * TIME_STEP, y := self.y + yv * TIME_STEP }

end CelestialObject

/-- Python's int() applied to a float: truncation toward zero. -/
def pyInt (x : ℝ) : ℤ := if 0 ≤ x then ⌊x⌋ else ⌈x⌉

/-- Python's list slice `t[k:]` for an arbitrary (possibly negative) start
index k: a negative start counts from the end, clamped at the front. -/
def pySliceFrom (t : List (ℝ × ℝ)) (k : ℤ) : List (ℝ × ℝ) :=
  if k < 0 then t.drop (t.length - (-k).toNat) else t.drop k.toNat

/-- The trail pruning of Planet.update_position (src/main.py lines 147-148):
`if len(orbit) > tail_length: orbit = orbit[-tail_length:]`.  Note that for
tail_length = 0 the slice start is -0 = 0, so the slice is the whole list. -/
def pruneOrbit (t : List (ℝ × ℝ)) (tail_length : ℤ) : List (ℝ × ℝ) :=
  if tail_length < (t.length : ℤ) then pySliceFrom t (-tail_length) else t

/-- Planet (src/main.py lines 96-111): a CelestialObject plus the orbit trail
and the cached distance to the parent star.  The parent reference itself is
resolved at each use site (it is the system's star in every configuration
considered here), so it is passed explicitly to the operations that read it. -/
structure Planet where
  body : CelestialObject
  orbit : List (ℝ × ℝ)
  distance_to_parent : ℝ

namespace Planet

/-- Planet.__init__ (src/main.py lines 98-111): empty trail, and
distance_to_parent computed once from the construction-time positions
(position defaults to (0, 0)). -/
def init (id : ℕ) (name : String) (parent_star : CelestialObject) (radius : ℝ)
    (color : ℕ × ℕ × ℕ) (mass : ℝ) (position : ℝ × ℝ := (0, 0))
    (velocity : ℝ × ℝ := (0, 0)) : Planet :=
  ⟨CelestialObject.init id name radius color mass position velocity, [],
   dist2D position parent_star.get_position⟩

/-- set_position inherited from CelestialObject: updates only x and y
(it does not recompute distance_to_parent). -/
def set_position (self : Planet) (x y : ℝ) : Planet :=
  { self with body := self.body.set_position x y }

/-- set_velocity inherited from CelestialObject. -/
def set_velocity (self : Planet) (x_vel y_vel : ℝ) : Planet :=
  { self with body := self.body.set_velocity x_vel y_vel }

/-- Planet.update_position (src/main.py lines 139-148): integrate like any
body, recompute distance_to_parent from the new positions, append the new
position to the trail, then prune the trail to the last
int(distance_to_parent * SCALE) entries.  `parent_star` is the current state
of the referenced parent at call time. -/
def update_position (self : Planet) (parent_star : CelestialObject)
    (bodies : List CelestialObject) : Planet :=
  let b := self.body.update_position bodies
  let d := dist2D b.get_position parent_star.get_position
  let orbit1 := self.orbit ++ [(b.x, b.y)]
  let tail_length := pyInt (d * SCALE)
  ⟨b, pruneOrbit orbit1 tail_length, d⟩

end Planet

/-- SolarSystem (src/main.py lines 151-156). -/
structure SolarSystem where
  name : String
  star : CelestialObject
  planets : List Planet

/-- The member loop of SolarSystem.update_positions (src/main.py lines
161-163).  The Python list `bodies = [star] + planets` holds live references,
so each planet is updated against the already-updated star, the
already-updated earlier planets (`done`), and the still-pre-step later
planets (`todo`). -/
def updateLoop (star1 : CelestialObject) (done todo : List Planet) : List Planet :=
  match todo with
  | [] => []
  | p :: rest =>
      let bodies := star1 :: (done ++ p :: rest).map Planet.body
      let p1 := Planet.update_position p star1 bodies
      p1 :: updateLoop star1 (done ++ [p1]) rest

/-- SolarSystem.update_positions (src/main.py lines 158-163): the star is
integrated first against the planet list, then each planet is updated in
order against the live body list. -/
def SolarSystem.update_positions (s : SolarSystem) : SolarSystem :=
  let star1 := s.star.update_position (s.planets.map Planet.body)
  { s with star := star1, planets := updateLoop star1 [] s.planets }

/-- Modelled from the spec (section 4.3 step protocol, the reading asserted by
C1): the center is integrated first, then EVERY member's total force is
computed against the updated center plus ALL members at their still-pre-step
positions.  Comparison definition for the refinement claim C1; it is NOT the
code's behavior. -/
def SolarSystem.update_positions_presnapshot (s : SolarSystem) : SolarSystem :=
  let star1 := s.star.update_position (s.planets.map Planet.body)
  { s with star := star1,
           planets := s.planets.map fun p =>
             Planet.update_position p star1 (star1 :: s.planets.map Planet.body) }

/-- create_solar_system (src/main.py lines 174-196), with ids 0..4 modelling
the five distinct Python objects. -/
def create_solar_system : SolarSystem :=
  let sun0 := CelestialObject.init 0 "Sun" 16 (255, 255, 0) 1.98892e30
  let sun := sun0.set_position 0 0
  let mercury := ((Planet.init 1 "Mercury" sun 4 (80, 78, 81) 3.30e23).set_position
    (0.387 * AU) 0).set_velocity 0 47400
  let venus := ((Planet.init 2 "Venus" sun 5 (255, 192, 0) 4.8685e24).set_position
    (-0.723 * AU) 0).set_velocity 0 (-35020)
  let earth := ((Planet.init 3 "Earth" sun 5 (100, 149, 237) 5.9742e24).set_position
    (1 * AU) 0).set_velocity 0 29783
  let mars := ((Planet.init 4 "Mars" sun 4 (188, 39, 50) 6.39e23).set_position
    (-1.524 * AU) 0).set_velocity 0 (-24077)
  ⟨"The Solar System", sun, [mercury, venus, earth, mars]⟩

/-- Fallback value for list lookups in concrete statements. -/
def dummyPlanet : Planet := ⟨⟨1000000, "", 0, (0, 0, 0), 0, 0, 0, 0, 0⟩, [], 0⟩

/-! ### Basic facts about the embedded operations -/

namespace CelestialObject

lemma update_position_id (self : CelestialObject) (bodies : List CelestialObject) :
    (self.update_position bodies).id = self.id := rfl

lemma update_position_name (self : CelestialObject) (bodies : List CelestialObject) :
    (self.update_position bodies).name = self.name := rfl

lemma update_position_mass (self : CelestialObject) (bodies : List CelestialObject) :
    (self.update_position bodies).mass = self.mass := rfl

lemma update_position_x_vel (self : CelestialObject) (bodies : List CelestialObject) :
    (self.update_position bodies).x_vel =
      self.x_vel + (total_force self bodies).1 / self.mass * TIME_STEP := rfl

lemma update_position_y_vel (self : CelestialObject) (bodies : List CelestialObject) :
    (self.update_position bodies).y_vel =
      self.y_vel + (total_force self bodies).2 / self.mass * TIME_STEP := rfl

lemma update_position_x (self : CelestialObject) (bodies : List CelestialObject) :
    (self.update_position bodies).x =
      self.x + (self.x_vel + (total_force self bodies).1 / self.mass * TIME_STEP) *
        TIME_STEP := rfl

lemma update_position_y (self : CelestialObject) (bodies : List CelestialObject) :
    (self.update_position bodies).y =
      self.y + (self.y_vel + (total_force self bodies).2 / self.mass * TIME_STEP) *
        TIME_STEP := rfl

lemma total_force_nil (self : CelestialObject) : total_force self [] = (0, 0) := rfl

lemma foldl_forceAccum_shift (self : CelestialObject) (l : List CelestialObject)
    (x y : ℝ) :
    l.foldl (forceAccum self) (x, y) =
      (x + (l.foldl (forceAccum self) (0, 0)).1,
       y + (l.foldl (forceAccum self) (0, 0)).2) := by
  induction l generalizing x y with
  | nil => simp
  | cons b l ih =>
      simp only [List.foldl_cons, forceAccum]
      by_cases hb : self.id = b.id
      · simp only [hb, if_pos rfl, ite_true]
        exact ih x y
      · simp only [if_neg hb]
        rw [ih (x + (self.calculate_force_vectors b).1) (y + (self.calculate_force_vectors b).2),
            ih (0 + (self.calculate_force_vectors b).1) (0 + (self.calculate_force_vectors b).2)]
        simp only [Prod.mk.injEq]
        constructor <;> ring

lemma total_force_cons (self b : CelestialObject) (l : List CelestialObject) :
    total_force self (b :: l) =
      if self.id = b.id then total_force self l
      else ((self.calculate_force_vectors b).1 + (total_force self l).1,
            (self.calculate_force_vectors b).2 + (total_force self l).2) := by
  unfold total_force
  simp only [List.foldl_cons, forceAccum]
  by_cases hb : self.id = b.id
  · simp [hb]
  · simp only [if_neg hb]
    rw [foldl_forceAccum_shift self l (0 + (self.calculate_force_vectors b).1)
      (0 + (self.calculate_force_vectors b).2)]
    simp only [Prod.mk.injEq]
    constructor <;> ring

end CelestialObject

/-! ### Resolving the trigonometric force formula -/

lemma dist2D_eq_abs (p q : ℝ × ℝ) :
    dist2D p q = Complex.abs ⟨q.1 - p.1, q.2 - p.2⟩ := by
  rw [Complex.abs_apply, Complex.normSq_mk, dist2D]
  congr 1
  ring

lemma dist2D_comm (p q : ℝ × ℝ) : dist2D p q = dist2D q p := by
  unfold dist2D
  congr 1
  ring

lemma dist2D_pos (p q : ℝ × ℝ) (h : p ≠ q) : 0 < dist2D p q := by
  rw [dist2D]
  apply Real.sqrt_pos.mpr
  rcases eq_or_ne p.1 q.1 with h1 | h1
  · have h2 : p.2 ≠ q.2 := fun h2 => h (Prod.ext h1 h2)
    have := pow_two_pos_of_ne_zero (sub_ne_zero.mpr h2)
    nlinarith [sq_nonneg (p.1 - q.1)]
  · have := pow_two_pos_of_ne_zero (sub_ne_zero.mpr h1)
    nlinarith [sq_nonneg (p.2 - q.2)]

/-- The pairwise force with the trigonometry resolved: the force vector points
from self toward other with magnitude G*m1*m2/d^2, i.e. its components are
G*m1*m2*(dx, dy)/d^3. -/
lemma CelestialObject.calculate_force_vectors_resolved (self other : CelestialObject)
    (h : self.get_position ≠ other.get_position) :
    self.calculate_force_vectors other =
      (G * self.mass * other.mass * (other.x - self.x) /
         dist2D self.get_position other.get_position ^ 3,
       G * self.mass * other.mass * (other.y - self.y) /
         dist2D self.get_position other.get_position ^ 3) := by
  have habs : dist2D self.get_position other.get_position =
      Complex.abs ⟨other.x - self.x, other.y - self.y⟩ :=
    dist2D_eq_abs self.get_position other.get_position
  have hd : 0 < dist2D self.get_position other.get_position := dist2D_pos _ _ h
  have hz : (⟨other.x - self.x, other.y - self.y⟩ : ℂ) ≠ 0 := by
    intro hz0
    rw [hz0, map_zero] at habs
    exact absurd habs (ne_of_gt hd)
  unfold calculate_force_vectors calculate_distance_vectors atan2
  simp only
  rw [Complex.cos_arg hz, Complex.sin_arg]
  have hre : (⟨other.x - self.x, other.y - self.y⟩ : ℂ).re = other.x - self.x := rfl
  have him : (⟨other.x - self.x, other.y - self.y⟩ : ℂ).im = other.y - self.y := rfl
  rw [hre, him, ← habs]
  have hne : dist2D self.get_position other.get_position ≠ 0 := ne_of_gt hd
  simp only [Prod.mk.injEq]
  constructor <;> (field_simp; ring)

/-- Pairwise force between two bodies on a common horizontal line, the other
body to the right: the force is purely horizontal, directed toward the other
body (positive x). -/
lemma CelestialObject.force_1D_pos (self other : CelestialObject)
    (hy : self.y = other.y) (hx : self.x < other.x) :
    self.calculate_force_vectors other =
      (G * self.mass * other.mass / (other.x - self.x) ^ 2, 0) := by
  have h : self.get_position ≠ other.get_position := by
    unfold get_position
    intro hc
    rw [Prod.ext_iff] at hc
    exact absurd hc.1 (ne_of_lt hx)
  rw [self.calculate_force_vectors_resolved other h]
  have hd : dist2D self.get_position other.get_position = other.x - self.x := by
    unfold dist2D get_position
    have h2 : (self.x - other.x) ^ 2 + (self.y - other.y) ^ 2 =
        (other.x - self.x) ^ 2 := by
      rw [hy]
      ring
    rw [h2, Real.sqrt_sq_eq_abs, abs_of_pos (sub_pos.mpr hx)]
  rw [hd]
  have hne : other.x - self.x ≠ 0 := ne_of_gt (sub_pos.mpr hx)
  simp only [Prod.mk.injEq]
  constructor
  · field_simp
    ring
  · rw [hy, sub_self, mul_zero, zero_div]

/-- Pairwise force between two bodies on a common horizontal line, the other
body to the left: the force is purely horizontal toward the other body
(negative x). -/
lemma CelestialObject.force_1D_neg (self other : CelestialObject)
    (hy : self.y = other.y) (hx : other.x < self.x) :
    self.calculate_force_vectors other =
      (-(G * self.mass * other.mass / (self.x - other.x) ^ 2), 0) := by
  have h : self.get_position ≠ other.get_position := by
    unfold get_position
    intro hc
    rw [Prod.ext_iff] at hc
    exact absurd hc.1 (ne_of_gt hx)
  rw [self.calculate_force_vectors_resolved other h]
  have hd : dist2D self.get_position other.get_position = self.x - other.x := by
    unfold dist2D get_position
    have h2 : (self.x - other.x) ^ 2 + (self.y - other.y) ^ 2 =
        (self.x - other.x) ^ 2 := by
      rw [hy]
      ring
    rw [h2, Real.sqrt_sq_eq_abs, abs_of_pos (sub_pos.mpr hx)]
  rw [hd]
  have hne : self.x - other.x ≠ 0 := ne_of_gt (sub_pos.mpr hx)
  simp only [Prod.mk.injEq]
  constructor
  · field_simp
    ring
  · rw [hy, sub_self, mul_zero, zero_div]

/-! ### Facts about pyInt and the trail pruning -/

lemma pyInt_of_nonneg (x : ℝ) (h : 0 ≤ x) : pyInt x = ⌊x⌋ := by
  unfold pyInt
  rw [if_pos h]

lemma pyInt_nonneg (x : ℝ) (h : 0 ≤ x) : 0 ≤ pyInt x := by
  rw [pyInt_of_nonneg x h]
  exact Int.floor_nonneg.mpr h

lemma pyInt_eq_zero (x : ℝ) (h0 : 0 ≤ x) (h1 : x < 1) : pyInt x = 0 := by
  rw [pyInt_of_nonneg x h0]
  exact Int.floor_eq_zero_iff.mpr ⟨h0, h1⟩

/-- A cap of 0 leaves the trail untouched: the Python slice `orbit[-0:]` is
`orbit[0:]`, the whole list. -/
lemma pruneOrbit_zero (t : List (ℝ × ℝ)) : pruneOrbit t 0 = t := by
  unfold pruneOrbit pySliceFrom
  split
  · rw [if_neg (by norm_num)]
    simp
  · rfl

/-- A positive cap keeps exactly the most recent cap entries (dropping from
the front), or the whole trail when it is already short enough. -/
lemma pruneOrbit_pos (t : List (ℝ × ℝ)) (n : ℤ) (h : 0 < n) :
    pruneOrbit t n = t.drop (t.length - n.toNat) := by
  unfold pruneOrbit pySliceFrom
  by_cases hlen : n < (t.length : ℤ)
  · rw [if_pos hlen, if_pos (by omega), neg_neg]
  · rw [if_neg hlen]
    have : t.length ≤ n.toNat := by omega
    rw [Nat.sub_eq_zero_of_le this, List.drop_zero]

lemma pruneOrbit_length_le (t : List (ℝ × ℝ)) (n : ℤ) :
    (pruneOrbit t n).length ≤ t.length := by
  unfold pruneOrbit pySliceFrom
  split
  · split <;> simp
  · exact le_refl _

lemma pruneOrbit_length_le_cap (t : List (ℝ × ℝ)) (n : ℤ) (h : 1 ≤ n) :
    ((pruneOrbit t n).length : ℤ) ≤ n := by
  rw [pruneOrbit_pos t n (by omega), List.length_drop]
  omega

/-- Pruning with a nonnegative cap never removes the most recent entry. -/
lemma pruneOrbit_getLast? (t : List (ℝ × ℝ)) (n : ℤ) (hn : 0 ≤ n) (ht : t ≠ []) :
    (pruneOrbit t n).getLast? = t.getLast? := by
  rcases lt_or_eq_of_le hn with hpos | hzero
  · rw [pruneOrbit_pos t n hpos]
    have hlen : 0 < t.length := List.length_pos.mpr ht
    by_cases hle : n.toNat ≤ t.length
    · have hne : n.toNat ≠ 0 := by omega
      rw [List.getLast?_eq_getElem?, List.getLast?_eq_getElem?, List.getElem?_drop,
        List.length_drop]
      congr 1
      omega
    · rw [Nat.sub_eq_zero_of_le (by omega), List.drop_zero]
  · rw [← hzero, pruneOrbit_zero]

/-! ### Characterizing the member update loop -/

lemma updateLoop_nil (star1 : CelestialObject) (done : List Planet) :
    updateLoop star1 done [] = [] := rfl

lemma updateLoop_cons (star1 : CelestialObject) (done : List Planet) (p : Planet)
    (rest : List Planet) :
    updateLoop star1 done (p :: rest) =
      Planet.update_position p star1 (star1 :: (done ++ p :: rest).map Planet.body) ::
        updateLoop star1
          (done ++ [Planet.update_position p star1
            (star1 :: (done ++ p :: rest).map Planet.body)]) rest := rfl

lemma updateLoop_length (star1 : CelestialObject) (done todo : List Planet) :
    (updateLoop star1 done todo).length = todo.length := by
  induction todo generalizing done with
  | nil => rfl
  | cons p rest ih =>
      rw [updateLoop_cons, List.length_cons, ih, List.length_cons]

/-- The planet at index j of the loop output is the input planet at index j,
updated against the updated star, the already-updated planets before it, and
the pre-step planets from position j on. -/
lemma updateLoop_getElem? (star1 : CelestialObject) (done todo : List Planet) (j : ℕ) :
    (updateLoop star1 done todo)[j]? =
      (todo[j]?).map fun p =>
        p.update_position star1
          (star1 :: (done ++ (updateLoop star1 done todo).take j ++ todo.drop j).map
            Planet.body) := by
  induction todo generalizing done j with
  | nil => simp [updateLoop_nil]
  | cons p rest ih =>
      rw [updateLoop_cons]
      cases j with
      | zero => simp
      | succ k =>
          rw [List.getElem?_cons_succ, List.getElem?_cons_succ, ih]
          cases hq : rest[k]? with
          | none => rfl
          | some q =>
              simp only [Option.map_some']
              have hL :
                  (done ++ [Planet.update_position p star1
                      (star1 :: (done ++ p :: rest).map Planet.body)]) ++
                    (updateLoop star1
                      (done ++ [Planet.update_position p star1
                        (star1 :: (done ++ p :: rest).map Planet.body)]) rest).take k ++
                    rest.drop k =
                  done ++
                    (Planet.update_position p star1
                        (star1 :: (done ++ p :: rest).map Planet.body) ::
                      updateLoop star1
                        (done ++ [Planet.update_position p star1
                          (star1 :: (done ++ p :: rest).map Planet.body)]) rest).take
                      (k + 1) ++
                    (p :: rest).drop (k + 1) := by
                rw [List.take_succ_cons, List.drop_succ_cons]
                simp [List.append_assoc]
              rw [hL]

lemma update_positions_star (s : SolarSystem) :
    (s.update_positions).star = s.star.update_position (s.planets.map Planet.body) := rfl

lemma update_positions_planets (s : SolarSystem) :
    (s.update_positions).planets =
      updateLoop ((s.update_positions).star) [] s.planets := rfl

lemma update_positions_length (s : SolarSystem) :
    (s.update_positions).planets.length = s.planets.length := by
  rw [update_positions_planets, updateLoop_length]

/-- Index-wise characterization of one full step: planet j of the output is
planet j of the input updated against the updated star, the already-updated
planets 0..j-1 (read back from the output), and the pre-step planets from j
on (including itself, which the identity check skips). -/
lemma update_positions_getElem? (s : SolarSystem) (j : ℕ) :
    (s.update_positions).planets[j]? =
      (s.planets[j]?).map fun p =>
        p.update_position (s.update_positions).star
          ((s.update_positions).star ::
            ((s.update_positions).planets.take j ++ s.planets.drop j).map Planet.body) := by
  rw [update_positions_planets, updateLoop_getElem?]
  simp

namespace Planet

lemma update_position_body (p : Planet) (parent : CelestialObject)
    (bodies : List CelestialObject) :
    (p.update_position parent bodies).body = p.body.update_position bodies := rfl

lemma update_position_distance (p : Planet) (parent : CelestialObject)
    (bodies : List CelestialObject) :
    (p.update_position parent bodies).distance_to_parent =
      dist2D (p.body.update_position bodies).get_position parent.get_position := rfl

lemma update_position_orbit (p : Planet) (parent : CelestialObject)
    (bodies : List CelestialObject) :
    (p.update_position parent bodies).orbit =
      pruneOrbit
        (p.orbit ++ [((p.body.update_position bodies).x, (p.body.update_position bodies).y)])
        (pyInt (dist2D (p.body.update_position bodies).get_position parent.get_position *
          SCALE)) := rfl

end Planet

lemma dist2D_nonneg (p q : ℝ × ℝ) : 0 ≤ dist2D p q := Real.sqrt_nonneg _

lemma SCALE_nonneg : (0:ℝ) ≤ SCALE := by
  unfold SCALE AU
  norm_num

lemma dist2D_x_axis (x : ℝ) : dist2D (x, 0) (0, 0) = |x| := by
  unfold dist2D
  rw [show ((x, (0:ℝ)).1 - ((0:ℝ), (0:ℝ)).1) ^ 2 + ((x, (0:ℝ)).2 - ((0:ℝ), (0:ℝ)).2) ^ 2
      = x ^ 2 by norm_num]
  exact Real.sqrt_sq_eq_abs x

/-! ### Claim C6: semi-implicit Euler, velocity first, then position from the
updated velocity -/

/-- C6 (confirmed): the integration step updates velocity by v += (F/m)*dt and
then position by x += v*dt with the already-updated velocity; consequently the
position gains the extra (F/m)*dt^2 term of semi-implicit Euler (with explicit
Euler it would be x + v_old*dt only). -/
theorem semi_implicit_euler_order (self : CelestialObject)
    (bodies : List CelestialObject) :
    (self.update_position bodies).x_vel =
      self.x_vel + (CelestialObject.total_force self bodies).1 / self.mass * TIME_STEP ∧
    (self.update_position bodies).y_vel =
      self.y_vel + (CelestialObject.total_force self bodies).2 / self.mass * TIME_STEP ∧
    (self.update_position bodies).x =
      self.x + (self.update_position bodies).x_vel * TIME_STEP ∧
    (self.update_position bodies).y =
      self.y + (self.update_position bodies).y_vel * TIME_STEP ∧
    (self.update_position bodies).x =
      self.x + self.x_vel * TIME_STEP +
        (CelestialObject.total_force self bodies).1 / self.mass * TIME_STEP ^ 2 ∧
    (self.update_position bodies).y =
      self.y + self.y_vel * TIME_STEP +
        (CelestialObject.total_force self bodies).2 / self.mass * TIME_STEP ^ 2 := by
  refine ⟨rfl, rfl, rfl, rfl, ?_, ?_⟩
  · rw [CelestialObject.update_position_x]
    ring
  · rw [CelestialObject.update_position_y]
    ring

/-! ### Claim C4: mass validation at construction -/

/-- C4 counterexample: the constructor performs no validation at all, so a
body with mass -1 is constructed successfully (construction is total) and
carries its non-positive mass. -/
theorem construction_accepts_nonpositive_mass :
    (CelestialObject.init 99 "Rogue" 1 (0, 0, 0) (-1) (0, 0) (0, 0)).mass = -1 ∧
    ¬ (0 < (CelestialObject.init 99 "Rogue" 1 (0, 0, 0) (-1) (0, 0) (0, 0)).mass) := by
  constructor
  · rfl
  · rw [show (CelestialObject.init 99 "Rogue" 1 (0, 0, 0) (-1) (0, 0) (0, 0)).mass
        = -1 from rfl]
    norm_num

/-- C4 amended: construction never rejects any mass; instead, every body the
scenario factory actually constructs has a strictly positive literal mass. -/
theorem scenario_masses_positive :
    create_solar_system.star.mass = 1.98892e30 ∧
    create_solar_system.planets.map (fun p => p.body.mass) =
      [3.30e23, 4.8685e24, 5.9742e24, 6.39e23] ∧
    (0:ℝ) < 1.98892e30 ∧ (0:ℝ) < 3.30e23 ∧ (0:ℝ) < 4.8685e24 ∧
    (0:ℝ) < 5.9742e24 ∧ (0:ℝ) < 6.39e23 := by
  refine ⟨rfl, rfl, ?_, ?_, ?_, ?_, ?_⟩ <;> norm_num

/-! ### Claim C8: identity-based self-exclusion in the force sum -/

/-- C8 (confirmed): the force loop skips exactly the entries whose identity
matches `self`; a body alone (or over an empty list, as for a system with no
planets) receives zero total force and its velocity is unchanged by a step;
any two bodies of different identity both contribute, regardless of their
numeric state. -/
theorem total_force_identity_exclusion (nm : String) (self b1 b2 : CelestialObject)
    (h1 : self.id ≠ b1.id) (h2 : self.id ≠ b2.id) :
    CelestialObject.total_force self [self] = (0, 0) ∧
    CelestialObject.total_force self [] = (0, 0) ∧
    ((SolarSystem.mk nm self []).update_positions).star.x_vel = self.x_vel ∧
    ((SolarSystem.mk nm self []).update_positions).star.y_vel = self.y_vel ∧
    CelestialObject.total_force self [b1, b2] =
      ((self.calculate_force_vectors b1).1 + (self.calculate_force_vectors b2).1,
       (self.calculate_force_vectors b1).2 + (self.calculate_force_vectors b2).2) := by
  refine ⟨?_, rfl, ?_, ?_, ?_⟩
  · rw [CelestialObject.total_force_cons, if_pos rfl]
    rfl
  · rw [update_positions_star]
    simp [CelestialObject.update_position_x_vel, CelestialObject.total_force_nil]
  · rw [update_positions_star]
    simp [CelestialObject.update_position_y_vel, CelestialObject.total_force_nil]
  · rw [CelestialObject.total_force_cons, if_neg h1, CelestialObject.total_force_cons,
      if_neg h2, CelestialObject.total_force_nil]
    simp

/-- Two bodies with identical numeric state but distinct identities. -/
def wB1 : CelestialObject := ⟨8, "Twin", 1, (0, 0, 0), 5, 1, 2, 3, 4⟩

/-- Same numeric state as wB1, different identity. -/
def wB2 : CelestialObject := ⟨9, "Twin", 1, (0, 0, 0), 5, 1, 2, 3, 4⟩

/-- A third body distinct from both. -/
def wSelf : CelestialObject := ⟨7, "Solo", 1, (0, 0, 0), 2, 10, 0, 0, 0⟩

theorem total_force_identity_exclusion_witness :
    wSelf.id ≠ wB1.id ∧ wSelf.id ≠ wB2.id ∧
    (CelestialObject.total_force wSelf [wSelf] = (0, 0) ∧
     CelestialObject.total_force wSelf [] = (0, 0) ∧
     ((SolarSystem.mk "W" wSelf []).update_positions).star.x_vel = wSelf.x_vel ∧
     ((SolarSystem.mk "W" wSelf []).update_positions).star.y_vel = wSelf.y_vel ∧
     CelestialObject.total_force wSelf [wB1, wB2] =
       ((wSelf.calculate_force_vectors wB1).1 + (wSelf.calculate_force_vectors wB2).1,
        (wSelf.calculate_force_vectors wB1).2 + (wSelf.calculate_force_vectors wB2).2)) :=
  ⟨by decide, by decide,
   total_force_identity_exclusion "W" wSelf wB1 wB2 (by decide) (by decide)⟩

/-! ### Claim C5: the pairwise force formula -/

/-- Modelled from the spec (section 4.1, pairwise_force): magnitude
F = G*m_self*m_other/d^2 with d = sqrt(dx^2+dy^2), direction via
theta = atan2(dy, dx), components (F*cos theta, F*sin theta).
Comparison definition for the refinement claim C5. -/
def pairwise_force_spec (self other : CelestialObject) : ℝ × ℝ :=
  let dx := other.x - self.x
  let dy := other.y - self.y
  let d := Real.sqrt (dx ^ 2 + dy ^ 2)
  let F := G * self.mass * other.mass / d ^ 2
  let theta := atan2 dy dx
  (F * Real.cos theta, F * Real.sin theta)

/-- C5 (confirmed): for non-coincident bodies, calculate_force_vectors
computes exactly the spec's formula, which resolves to the vector of magnitude
G*m1*m2/d^2 pointing from self toward other. -/
theorem pairwise_force_formula (self other : CelestialObject)
    (h : self.get_position ≠ other.get_position) :
    self.calculate_force_vectors other = pairwise_force_spec self other ∧
    self.calculate_force_vectors other =
      (G * self.mass * other.mass * (other.x - self.x) /
         dist2D self.get_position other.get_position ^ 3,
       G * self.mass * other.mass * (other.y - self.y) /
         dist2D self.get_position other.get_position ^ 3) := by
  constructor
  · unfold CelestialObject.calculate_force_vectors
      CelestialObject.calculate_distance_vectors pairwise_force_spec dist2D
      CelestialObject.get_position
    simp only
    have hd : Real.sqrt ((self.x - other.x) ^ 2 + (self.y - other.y) ^ 2) =
        Real.sqrt ((other.x - self.x) ^ 2 + (other.y - self.y) ^ 2) := by
      congr 1
      ring
    rw [hd, Prod.mk.injEq]
    constructor <;> ring
  · exact self.calculate_force_vectors_resolved other h

/-- Probe body at the origin. -/
def wA : CelestialObject := ⟨10, "A", 1, (0, 0, 0), 2, 0, 0, 0, 0⟩

/-- Probe body at (3, 4), distance 5 from wA. -/
def wC : CelestialObject := ⟨11, "C", 1, (0, 0, 0), 3, 3, 4, 0, 0⟩

theorem pairwise_force_formula_witness :
    wA.get_position ≠ wC.get_position ∧
    (wA.calculate_force_vectors wC = pairwise_force_spec wA wC ∧
     wA.calculate_force_vectors wC =
       (G * wA.mass * wC.mass * (wC.x - wA.x) /
          dist2D wA.get_position wC.get_position ^ 3,
        G * wA.mass * wC.mass * (wC.y - wA.y) /
          dist2D wA.get_position wC.get_position ^ 3)) :=
  have h : wA.get_position ≠ wC.get_position := by
    intro hc
    have h1 : wA.x = wC.x := congrArg Prod.fst hc
    norm_num [wA, wC] at h1
  ⟨h, pairwise_force_formula wA wC h⟩

/-! ### Claim C7: Newton's third law antisymmetry -/

/-- C7 (confirmed): for non-coincident bodies the pairwise force is
antisymmetric, pairwise_force(A, B) = -pairwise_force(B, A). -/
theorem pairwise_force_antisymm (a b : CelestialObject)
    (h : a.get_position ≠ b.get_position) :
    a.calculate_force_vectors b =
      (-(b.calculate_force_vectors a).1, -(b.calculate_force_vectors a).2) := by
  rw [a.calculate_force_vectors_resolved b h,
    b.calculate_force_vectors_resolved a (Ne.symm h),
    dist2D_comm b.get_position a.get_position]
  simp only [Prod.mk.injEq]
  constructor <;> ring

theorem pairwise_force_antisymm_witness :
    wA.get_position ≠ wC.get_position ∧
    wA.calculate_force_vectors wC =
      (-(wC.calculate_force_vectors wA).1, -(wC.calculate_force_vectors wA).2) :=
  have h : wA.get_position ≠ wC.get_position := by
    intro hc
    have h1 : wA.x = wC.x := congrArg Prod.fst hc
    norm_num [wA, wC] at h1
  ⟨h, pairwise_force_antisymm wA wC h⟩

/-! ### Claim C2: the trail cap edge cases -/

/-- C2 counterexample: with cap 0 and a 3-entry trail, the trail is NOT
cleared: the Python slice `orbit[-0:]` is the whole list, so all 3 entries
survive; and with cap 1 the trail is cut to 1 entry, so no minimum of 2
entries is retained either. -/
theorem trail_prune_cap_zero_keeps_trail :
    pruneOrbit [(0, 0), (1, 0), (2, 0)] 0 = [(0, 0), (1, 0), (2, 0)] ∧
    (pruneOrbit [(0, 0), (1, 0), (2, 0)] 0).length = 3 ∧
    (pruneOrbit [(0, 0), (1, 0), (2, 0)] 1).length = 1 := by
  refine ⟨pruneOrbit_zero _, ?_, ?_⟩
  · rw [pruneOrbit_zero]
    rfl
  · rw [pruneOrbit_pos _ 1 one_pos]
    rfl

/-- C2 amended: the cap int(d*SCALE) is never negative (distance and scale are
nonnegative); a cap of exactly 0 leaves the trail unchanged, because the
Python slice `orbit[-0:]` is the whole list; a positive cap keeps the most
recent cap entries (drop from the front) whenever the trail is longer, with
no minimum-2 exception of any kind. -/
theorem trail_prune_cap_semantics (t : List (ℝ × ℝ)) (n : ℤ) :
    (n = 0 → pruneOrbit t n = t) ∧
    (0 < n → pruneOrbit t n = t.drop (t.length - n.toNat)) ∧
    (0 < n → (pruneOrbit t n).length = min n.toNat t.length) ∧
    (∀ d : ℝ, 0 ≤ d → 0 ≤ pyInt (d * SCALE)) := by
  refine ⟨?_, ?_, ?_, ?_⟩
  · rintro rfl
    exact pruneOrbit_zero t
  · exact pruneOrbit_pos t n
  · intro hn
    rw [pruneOrbit_pos t n hn, List.length_drop]
    omega
  · intro d hd
    exact pyInt_nonneg _ (mul_nonneg hd SCALE_nonneg)

theorem trail_prune_cap_semantics_witness :
    pruneOrbit [(0, 0), (5, 5)] 0 = [(0, 0), (5, 5)] ∧
    pruneOrbit [(0, 0), (5, 5)] 1 = [(5, 5)] := by
  constructor
  · exact (trail_prune_cap_semantics [(0, 0), (5, 5)] 0).1 rfl
  · rw [(trail_prune_cap_semantics [(0, 0), (5, 5)] 1).2.1 one_pos]
    rfl

/-! ### Claim C9: append-before-prune, last trail entry equals the position -/

/-- The pruning cap is never negative, so the appended entry always survives:
the most recent trail entry after any planet update is the new position. -/
lemma Planet.update_last_entry (p : Planet) (parent : CelestialObject)
    (bodies : List CelestialObject) :
    (p.update_position parent bodies).orbit.getLast? =
      some ((p.update_position parent bodies).body.x,
        (p.update_position parent bodies).body.y) := by
  rw [Planet.update_position_orbit]
  have hn : 0 ≤ pyInt (dist2D (p.body.update_position bodies).get_position
      parent.get_position * SCALE) :=
    pyInt_nonneg _ (mul_nonneg (dist2D_nonneg _ _) SCALE_nonneg)
  rw [pruneOrbit_getLast? _ _ hn (by simp), List.getLast?_concat]
  rfl

/-- C9 (confirmed): after an advance, each planet's trail is its previous
trail with exactly the new position appended, then pruned; and since the cap
is never negative, pruning never removes the appended entry, so the most
recent trail entry equals the planet's current position exactly. -/
theorem trail_last_entry_is_position (s : SolarSystem) (j : ℕ)
    (hj : j < s.planets.length) :
    ∃ p q, s.planets[j]? = some p ∧ (s.update_positions).planets[j]? = some q ∧
      q.orbit.getLast? = some (q.body.x, q.body.y) ∧
      q.orbit = pruneOrbit (p.orbit ++ [(q.body.x, q.body.y)])
        (pyInt (q.distance_to_parent * SCALE)) := by
  obtain ⟨p, hp⟩ : ∃ p, s.planets[j]? = some p :=
    ⟨s.planets[j], List.getElem?_eq_getElem hj⟩
  refine ⟨p, p.update_position (s.update_positions).star
      ((s.update_positions).star ::
        ((s.update_positions).planets.take j ++ s.planets.drop j).map Planet.body),
    hp, ?_, ?_, ?_⟩
  · rw [update_positions_getElem?, hp]
    rfl
  · exact Planet.update_last_entry p _ _
  · rfl

/-- Minimal star for concrete witnesses of the step-protocol claims. -/
def wStar : CelestialObject := ⟨20, "S", 1, (0, 0, 0), 1, 0, 0, 0, 0⟩

/-- Minimal planet for concrete witnesses of the step-protocol claims. -/
def wPlanet : Planet := ⟨⟨21, "P", 1, (0, 0, 0), 1, 5, 0, 0, 0⟩, [], 0⟩

/-- Minimal one-planet system. -/
def wSys : SolarSystem := ⟨"W", wStar, [wPlanet]⟩

theorem trail_last_entry_is_position_witness :
    0 < wSys.planets.length ∧
    ∃ p q, wSys.planets[0]? = some p ∧
      (wSys.update_positions).planets[0]? = some q ∧
      q.orbit.getLast? = some (q.body.x, q.body.y) ∧
      q.orbit = pruneOrbit (p.orbit ++ [(q.body.x, q.body.y)])
        (pyInt (q.distance_to_parent * SCALE)) :=
  have hj : 0 < wSys.planets.length := by
    rw [show wSys.planets.length = 1 from rfl]
    norm_num
  ⟨hj, trail_last_entry_is_position wSys 0 hj⟩

/-! ### Claim C10: distance_to_parent is stale before the first advance -/

/-- C10 (confirmed): every planet built by create_solar_system carries
distance_to_parent = 0, because the constructor computes it from the default
position (0, 0) against the sun at (0, 0), and the later set_position call
does not recompute it; the true distances to the star are the (nonzero)
orbital radii; and after any update_position call the field is recomputed
from the post-step positions, so it becomes correct at the first advance. -/
theorem initial_distance_to_parent_is_zero :
    create_solar_system.planets.map Planet.distance_to_parent = [0, 0, 0, 0] ∧
    create_solar_system.planets.map
        (fun p => dist2D p.body.get_position create_solar_system.star.get_position) =
      [0.387 * AU, 0.723 * AU, 1 * AU, 1.524 * AU] ∧
    (0:ℝ) < 0.387 * AU ∧ (0:ℝ) < 0.723 * AU ∧ (0:ℝ) < 1 * AU ∧
    (0:ℝ) < 1.524 * AU ∧
    (∀ (p : Planet) (parent : CelestialObject) (bodies : List CelestialObject),
      (p.update_position parent bodies).distance_to_parent =
        dist2D (p.update_position parent bodies).body.get_position
          parent.get_position) := by
  have hAU : (0:ℝ) < AU := by
    unfold AU
    norm_num
  refine ⟨?_, ?_, by positivity, by positivity, by positivity, by positivity,
    fun p parent bodies => rfl⟩
  · have hz : dist2D (0 : ℝ × ℝ) (0 : ℝ × ℝ) = 0 := by
      unfold dist2D
      simp
    simp only [create_solar_system, Planet.set_velocity, Planet.set_position,
      Planet.init, CelestialObject.set_position, CelestialObject.set_velocity,
      CelestialObject.init, CelestialObject.get_position, List.map]
    norm_num [hz]
  · simp only [create_solar_system, Planet.set_velocity, Planet.set_position,
      Planet.init, CelestialObject.set_position, CelestialObject.set_velocity,
      CelestialObject.init, CelestialObject.get_position, List.map]
    rw [dist2D_x_axis, dist2D_x_axis, dist2D_x_axis, dist2D_x_axis]
    rw [abs_of_nonneg (by positivity), abs_of_nonpos (by nlinarith),
      abs_of_nonneg (by positivity), abs_of_nonpos (by nlinarith)]
    norm_num

/-! ### Claim C1: which state each member's force computation observes -/

lemma G_pos : (0:ℝ) < G := by
  unfold G
  norm_num

lemma TIME_STEP_pos : (0:ℝ) < TIME_STEP := by
  unfold TIME_STEP
  norm_num

/-- C1 amended: the center is integrated first; the members are then processed
sequentially in list order, and member j's total force is computed against the
updated center, the ALREADY-UPDATED members 0..j-1 (read back from the step's
output), and the still-pre-step members from j on.  Only the first member is
guaranteed to observe every other member's pre-step state. -/
theorem member_update_order (s : SolarSystem) (j : ℕ) (hj : j < s.planets.length) :
    ∃ p, s.planets[j]? = some p ∧
      (s.update_positions).planets[j]? =
        some (p.update_position (s.update_positions).star
          ((s.update_positions).star ::
            ((s.update_positions).planets.take j ++ s.planets.drop j).map
              Planet.body)) := by
  obtain ⟨p, hp⟩ : ∃ p, s.planets[j]? = some p :=
    ⟨s.planets[j], List.getElem?_eq_getElem hj⟩
  refine ⟨p, hp, ?_⟩
  rw [update_positions_getElem?, hp]
  rfl

theorem member_update_order_witness :
    0 < wSys.planets.length ∧
    ∃ p, wSys.planets[0]? = some p ∧
      (wSys.update_positions).planets[0]? =
        some (p.update_position (wSys.update_positions).star
          ((wSys.update_positions).star ::
            ((wSys.update_positions).planets.take 0 ++ wSys.planets.drop 0).map
              Planet.body)) :=
  have hj : 0 < wSys.planets.length := by
    rw [show wSys.planets.length = 1 from rfl]
    norm_num
  ⟨hj, member_update_order wSys 0 hj⟩

/-- Star of the two-planet counterexample configuration: mass 1 kg at the
origin, at rest. -/
def bS1 : CelestialObject := ⟨0, "S", 1, (0, 0, 0), 1, 0, 0, 0, 0⟩

/-- First member: mass 1 kg at x = 10^6 m, at rest. -/
def bP1 : CelestialObject := ⟨1, "P1", 1, (0, 0, 0), 1, 1000000, 0, 0, 0⟩

/-- Second member: mass 1 kg at x = 3*10^6 m, at rest. -/
def bP2 : CelestialObject := ⟨2, "P2", 1, (0, 0, 0), 1, 3000000, 0, 0, 0⟩

/-- Two-member system in which the second member's update observes the first
member's already-updated position. -/
def sysC1 : SolarSystem := ⟨"C1", bS1, [⟨bP1, [], 0⟩, ⟨bP2, [], 0⟩]⟩

/-- C1 counterexample: in sysC1 the second member's post-step velocity differs
between the code's sequential in-place update and the spec's claimed
pre-step-snapshot update, because the first member has already moved (strictly
toward the star) when the second member's force is computed. -/
theorem later_member_sees_updated_member :
    ((sysC1.update_positions).planets.getD 1 dummyPlanet).body.x_vel ≠
      ((sysC1.update_positions_presnapshot).planets.getD 1 dummyPlanet).body.x_vel := by
  have hcodebody : ((sysC1.update_positions).planets.getD 1 dummyPlanet).body
      = bP2.update_position [bS1.update_position [bP1, bP2],
          bP1.update_position [bS1.update_position [bP1, bP2], bP1, bP2], bP2] := rfl
  have hclaimbody : ((sysC1.update_positions_presnapshot).planets.getD 1 dummyPlanet).body
      = bP2.update_position [bS1.update_position [bP1, bP2], bP1, bP2] := rfl
  rw [hcodebody, hclaimbody]
  have hG := G_pos
  have hdt := TIME_STEP_pos
  -- the star after its update
  have hf1 : bS1.calculate_force_vectors bP1
      = (G * 1 * 1 / ((1000000:ℝ) - 0) ^ 2, 0) :=
    bS1.force_1D_pos bP1 rfl (by norm_num [bS1, bP1])
  have hf2 : bS1.calculate_force_vectors bP2
      = (G * 1 * 1 / ((3000000:ℝ) - 0) ^ 2, 0) :=
    bS1.force_1D_pos bP2 rfl (by norm_num [bS1, bP2])
  have htfS : CelestialObject.total_force bS1 [bP1, bP2]
      = (G / 1000000 ^ 2 + G / 3000000 ^ 2, 0) := by
    rw [CelestialObject.total_force_cons, if_neg (by decide),
      CelestialObject.total_force_cons, if_neg (by decide),
      CelestialObject.total_force_nil, hf1, hf2]
    norm_num
  have hSx : (bS1.update_position [bP1, bP2]).x
      = (G / 1000000 ^ 2 + G / 3000000 ^ 2) * TIME_STEP * TIME_STEP := by
    rw [CelestialObject.update_position_x, htfS]
    show (0:ℝ) + ((0:ℝ) + (G / 1000000 ^ 2 + G / 3000000 ^ 2) / 1 * TIME_STEP) *
      TIME_STEP = _
    ring
  have hSy : (bS1.update_position [bP1, bP2]).y = 0 := by
    rw [CelestialObject.update_position_y, htfS]
    show (0:ℝ) + ((0:ℝ) + (0:ℝ) / 1 * TIME_STEP) * TIME_STEP = 0
    ring
  have hxs0 : 0 < (G / 1000000 ^ 2 + G / 3000000 ^ 2) * TIME_STEP * TIME_STEP := by
    have ha : 0 < G / 1000000 ^ 2 := div_pos hG (by norm_num)
    have hb : 0 < G / 3000000 ^ 2 := div_pos hG (by norm_num)
    exact mul_pos (mul_pos (by linarith) hdt) hdt
  have hxs1 : (G / 1000000 ^ 2 + G / 3000000 ^ 2) * TIME_STEP * TIME_STEP < 1000000 := by
    unfold G TIME_STEP
    norm_num
  have hs0 : 0 < (bS1.update_position [bP1, bP2]).x := by
    rw [hSx]
    exact hxs0
  have hs1 : (bS1.update_position [bP1, bP2]).x < 1000000 := by
    rw [hSx]
    exact hxs1
  -- the first member after its (code-path) update
  have hfP1S : bP1.calculate_force_vectors (bS1.update_position [bP1, bP2])
      = (-(G * 1 * 1 / ((1000000:ℝ) - (bS1.update_position [bP1, bP2]).x) ^ 2), 0) :=
    bP1.force_1D_neg _ (by rw [hSy]; exact rfl) hs1
  have hfP1P2 : bP1.calculate_force_vectors bP2
      = (G * 1 * 1 / ((3000000:ℝ) - 1000000) ^ 2, 0) :=
    bP1.force_1D_pos bP2 rfl (by norm_num [bP1, bP2])
  have htfP1 : CelestialObject.total_force bP1
        [bS1.update_position [bP1, bP2], bP1, bP2]
      = (-(G / (1000000 - (bS1.update_position [bP1, bP2]).x) ^ 2) + G / 2000000 ^ 2,
         0) := by
    rw [CelestialObject.total_force_cons, if_neg (by decide),
      CelestialObject.total_force_cons, if_pos rfl,
      CelestialObject.total_force_cons, if_neg (by decide),
      CelestialObject.total_force_nil, hfP1S, hfP1P2]
    norm_num
  have hP1x : (bP1.update_position [bS1.update_position [bP1, bP2], bP1, bP2]).x
      = 1000000 + (-(G / (1000000 - (bS1.update_position [bP1, bP2]).x) ^ 2) +
          G / 2000000 ^ 2) * TIME_STEP * TIME_STEP := by
    rw [CelestialObject.update_position_x, htfP1]
    show (1000000:ℝ) + ((0:ℝ) + (-(G / (1000000 - (bS1.update_position [bP1, bP2]).x)
      ^ 2) + G / 2000000 ^ 2) / 1 * TIME_STEP) * TIME_STEP = _
    ring
  have hP1y : (bP1.update_position [bS1.update_position [bP1, bP2], bP1, bP2]).y
      = 0 := by
    rw [CelestialObject.update_position_y, htfP1]
    show (0:ℝ) + ((0:ℝ) + (0:ℝ) / 1 * TIME_STEP) * TIME_STEP = 0
    ring
  have hAB : G / 2000000 ^ 2
      < G / (1000000 - (bS1.update_position [bP1, bP2]).x) ^ 2 := by
    apply div_lt_div_of_pos_left hG
    · have h1 : 0 < 1000000 - (bS1.update_position [bP1, bP2]).x := by linarith
      positivity
    · nlinarith
  have hP1lt : (bP1.update_position [bS1.update_position [bP1, bP2], bP1, bP2]).x
      < 1000000 := by
    rw [hP1x]
    nlinarith [mul_pos hdt hdt]
  -- the second member's force computations on the two paths
  have hfP2S : bP2.calculate_force_vectors (bS1.update_position [bP1, bP2])
      = (-(G * 1 * 1 / ((3000000:ℝ) - (bS1.update_position [bP1, bP2]).x) ^ 2), 0) :=
    bP2.force_1D_neg _ (by rw [hSy]; exact rfl) (by show _ < (3000000:ℝ); linarith)
  have hfP2P1u : bP2.calculate_force_vectors
        (bP1.update_position [bS1.update_position [bP1, bP2], bP1, bP2])
      = (-(G * 1 * 1 / ((3000000:ℝ) -
          (bP1.update_position [bS1.update_position [bP1, bP2], bP1, bP2]).x) ^ 2),
         0) :=
    bP2.force_1D_neg _ (by rw [hP1y]; exact rfl) (by show _ < (3000000:ℝ); linarith)
  have hfP2P1pre : bP2.calculate_force_vectors bP1
      = (-(G * 1 * 1 / ((3000000:ℝ) - 1000000) ^ 2), 0) :=
    bP2.force_1D_neg bP1 rfl (by norm_num [bP1, bP2])
  have htfP2code : CelestialObject.total_force bP2
        [bS1.update_position [bP1, bP2],
         bP1.update_position [bS1.update_position [bP1, bP2], bP1, bP2], bP2]
      = (-(G / (3000000 - (bS1.update_position [bP1, bP2]).x) ^ 2) +
          -(G / (3000000 -
            (bP1.update_position [bS1.update_position [bP1, bP2], bP1, bP2]).x) ^ 2),
         0) := by
    rw [CelestialObject.total_force_cons, if_neg (by decide),
      CelestialObject.total_force_cons, if_neg (by decide),
      CelestialObject.total_force_cons, if_pos rfl,
      CelestialObject.total_force_nil, hfP2S, hfP2P1u]
    norm_num
  have htfP2claim : CelestialObject.total_force bP2
        [bS1.update_position [bP1, bP2], bP1, bP2]
      = (-(G / (3000000 - (bS1.update_position [bP1, bP2]).x) ^ 2) +
          -(G / 2000000 ^ 2), 0) := by
    rw [CelestialObject.total_force_cons, if_neg (by decide),
      CelestialObject.total_force_cons, if_neg (by decide),
      CelestialObject.total_force_cons, if_pos rfl,
      CelestialObject.total_force_nil, hfP2S, hfP2P1pre]
    norm_num
  have hBB : G / (3000000 -
        (bP1.update_position [bS1.update_position [bP1, bP2], bP1, bP2]).x) ^ 2
      < G / 2000000 ^ 2 := by
    apply div_lt_div_of_pos_left hG (by norm_num)
    nlinarith
  have hgt : (bP2.update_position [bS1.update_position [bP1, bP2], bP1, bP2]).x_vel
      < (bP2.update_position [bS1.update_position [bP1, bP2],
          bP1.update_position [bS1.update_position [bP1, bP2], bP1, bP2], bP2]).x_vel := by
    rw [CelestialObject.update_position_x_vel, CelestialObject.update_position_x_vel,
      htfP2code, htfP2claim]
    show (0:ℝ) + (-(G / (3000000 - (bS1.update_position [bP1, bP2]).x) ^ 2) +
        -(G / 2000000 ^ 2)) / 1 * TIME_STEP
      < (0:ℝ) + (-(G / (3000000 - (bS1.update_position [bP1, bP2]).x) ^ 2) +
          -(G / (3000000 -
            (bP1.update_position [bS1.update_position [bP1, bP2], bP1, bP2]).x) ^ 2)) /
          1 * TIME_STEP
    have hstep : -(G / (3000000 - (bS1.update_position [bP1, bP2]).x) ^ 2) +
        -(G / 2000000 ^ 2)
      < -(G / (3000000 - (bS1.update_position [bP1, bP2]).x) ^ 2) +
          -(G / (3000000 -
            (bP1.update_position [bS1.update_position [bP1, bP2], bP1, bP2]).x) ^ 2) := by
      linarith
    nlinarith [hstep, hdt]
  exact ne_of_gt hgt

/-! ### Claim C3: trail growth bounds -/

lemma celestial_eq_of_fields {a b : CelestialObject} (h1 : a.id = b.id)
    (h2 : a.name = b.name) (h3 : a.radius = b.radius) (h4 : a.color = b.color)
    (h5 : a.mass = b.mass) (h6 : a.x = b.x) (h7 : a.y = b.y) (h8 : a.x_vel = b.x_vel)
    (h9 : a.y_vel = b.y_vel) : a = b := by
  cases a
  cases b
  simp only [CelestialObject.mk.injEq]
  exact ⟨h1, h2, h3, h4, h5, h6, h7, h8, h9⟩

lemma planet_eq_of_fields {a b : Planet} (h1 : a.body = b.body)
    (h2 : a.orbit = b.orbit) (h3 : a.distance_to_parent = b.distance_to_parent) :
    a = b := by
  cases a
  cases b
  simp only [Planet.mk.injEq]
  exact ⟨h1, h2, h3⟩

lemma system_eq_of_fields {a b : SolarSystem} (h1 : a.name = b.name)
    (h2 : a.star = b.star) (h3 : a.planets = b.planets) : a = b := by
  cases a
  cases b
  simp only [SolarSystem.mk.injEq]
  exact ⟨h1, h2, h3⟩

lemma dist2D_horiz (a b : ℝ) : dist2D (a, 0) (b, 0) = |a - b| := by
  unfold dist2D
  rw [show ((a, (0:ℝ)).1 - (b, (0:ℝ)).1) ^ 2 + ((a, (0:ℝ)).2 - (b, (0:ℝ)).2) ^ 2
      = (a - b) ^ 2 by norm_num]
  exact Real.sqrt_sq_eq_abs (a - b)

/-- One gravitational velocity kick G/u^2 * dt over a distance of at least
999997 m is positive and below 1e-17 m/s. -/
lemma grav_kick_bound (u : ℝ) (hu : 999997 ≤ u) :
    G / u ^ 2 * TIME_STEP ≤ 1e-17 ∧ 0 < G / u ^ 2 * TIME_STEP := by
  have hupos : (0:ℝ) < u := by linarith
  have hupos2 : (0:ℝ) < u ^ 2 := by positivity
  constructor
  · rw [div_mul_eq_mul_div, div_le_iff₀ hupos2]
    have husq : (999997:ℝ) ^ 2 ≤ u ^ 2 := by nlinarith
    have hnum : G * TIME_STEP ≤ 1e-17 * (999997:ℝ) ^ 2 := by
      unfold G TIME_STEP
      norm_num
    nlinarith
  · exact mul_pos (div_pos G_pos hupos2) TIME_STEP_pos

/-- Star of the one-planet trail-growth configuration. -/
def starB (xs vs : ℝ) : CelestialObject := ⟨0, "S", 1, (0, 0, 0), 1, xs, 0, vs, 0⟩

/-- Planet body of the one-planet trail-growth configuration. -/
def planetB (xp vp : ℝ) : CelestialObject := ⟨1, "P", 1, (0, 0, 0), 1, xp, 0, vp, 0⟩

/-- A one-planet system on the x-axis: star (mass 1) near the origin, planet
(mass 1) near x = 10^6 m, both with purely horizontal velocities. -/
def sysB (xs vs xp vp : ℝ) (orbit : List (ℝ × ℝ)) (dp : ℝ) : SolarSystem :=
  ⟨"B", starB xs vs, [⟨planetB xp vp, orbit, dp⟩]⟩

/-- Closed form of the star's post-step velocity in sysB. -/
def stepVs (xs vs xp : ℝ) : ℝ := vs + G / (xp - xs) ^ 2 * TIME_STEP

/-- Closed form of the star's post-step position in sysB. -/
def stepXs (xs vs xp : ℝ) : ℝ := xs + stepVs xs vs xp * TIME_STEP

/-- Closed form of the planet's post-step velocity in sysB (the planet sees
the already-updated star position). -/
def stepVp (xs vs xp vp : ℝ) : ℝ := vp + -(G / (xp - stepXs xs vs xp) ^ 2) * TIME_STEP

/-- Closed form of the planet's post-step position in sysB. -/
def stepXp (xs vs xp vp : ℝ) : ℝ := xp + stepVp xs vs xp vp * TIME_STEP

set_option maxHeartbeats 1000000 in
/-- One advance of sysB in closed form, with interval bounds: the bodies move
by less than 1e-11 m per step, the distance stays within [999997, 1000000] m,
and therefore the trail cap int(d*SCALE) is 0, so the appended trail entry is
never pruned. -/
lemma sysB_step (xs vs xp vp : ℝ) (orbit : List (ℝ × ℝ)) (dp : ℝ)
    (h1 : 0 ≤ xs) (h2 : xs ≤ 1) (h3 : 0 ≤ vs) (h4 : vs ≤ 1e-16)
    (h5 : 999999 ≤ xp) (h6 : xp ≤ 1000000) (h7 : -1e-16 ≤ vp) (h8 : vp ≤ 0) :
    (sysB xs vs xp vp orbit dp).update_positions
      = sysB (stepXs xs vs xp) (stepVs xs vs xp) (stepXp xs vs xp vp)
          (stepVp xs vs xp vp) (orbit ++ [(stepXp xs vs xp vp, 0)])
          (stepXp xs vs xp vp - stepXs xs vs xp) ∧
    xs ≤ stepXs xs vs xp ∧ stepXs xs vs xp ≤ xs + 1e-11 ∧
    vs ≤ stepVs xs vs xp ∧ stepVs xs vs xp ≤ vs + 1e-17 ∧
    xp - 1e-11 ≤ stepXp xs vs xp vp ∧ stepXp xs vs xp vp ≤ xp ∧
    vp - 1e-17 ≤ stepVp xs vs xp vp ∧ stepVp xs vs xp vp ≤ vp ∧
    pyInt ((stepXp xs vs xp vp - stepXs xs vs xp) * SCALE) = 0 := by
  have hG := G_pos
  have hdt := TIME_STEP_pos
  have hdtval : TIME_STEP = 86400 := by
    unfold TIME_STEP
    norm_num
  -- interval arithmetic for the closed forms
  have hk1 := grav_kick_bound (xp - xs) (by linarith)
  have hvs1 : vs ≤ stepVs xs vs xp := by
    unfold stepVs
    linarith [hk1.2]
  have hvs2 : stepVs xs vs xp ≤ vs + 1e-17 := by
    unfold stepVs
    linarith [hk1.1]
  have hxs1 : xs ≤ stepXs xs vs xp := by
    unfold stepXs
    have hnn : 0 ≤ stepVs xs vs xp * TIME_STEP :=
      mul_nonneg (by linarith) hdt.le
    linarith
  have hxs2 : stepXs xs vs xp ≤ xs + 1e-11 := by
    unfold stepXs
    have hsv : stepVs xs vs xp ≤ 1.1e-16 := by linarith
    have hsv0 : 0 ≤ stepVs xs vs xp := by linarith
    rw [hdtval]
    linarith
  have hk2 := grav_kick_bound (xp - stepXs xs vs xp) (by linarith)
  have hvp1 : stepVp xs vs xp vp ≤ vp := by
    unfold stepVp
    nlinarith [hk2.2]
  have hvp2 : vp - 1e-17 ≤ stepVp xs vs xp vp := by
    unfold stepVp
    nlinarith [hk2.1]
  have hxp2 : stepXp xs vs xp vp ≤ xp := by
    unfold stepXp
    have hsvp : stepVp xs vs xp vp ≤ 0 := by linarith
    nlinarith [mul_nonneg (neg_nonneg.mpr hsvp) hdt.le]
  have hxp1 : xp - 1e-11 ≤ stepXp xs vs xp vp := by
    unfold stepXp
    have hsvpl : -1.1e-16 ≤ stepVp xs vs xp vp := by linarith
    have hsvp : stepVp xs vs xp vp ≤ 0 := by linarith
    rw [hdtval]
    linarith
  have hdpos : 0 < stepXp xs vs xp vp - stepXs xs vs xp := by linarith
  have hdle : stepXp xs vs xp vp - stepXs xs vs xp ≤ 1000000 := by linarith
  have hScv : SCALE = 120 / 149.6e9 := by
    unfold SCALE AU
    norm_num
  have hcap : pyInt ((stepXp xs vs xp vp - stepXs xs vs xp) * SCALE) = 0 := by
    apply pyInt_eq_zero
    · exact mul_nonneg hdpos.le SCALE_nonneg
    · rw [hScv]
      linarith
  -- the star update in closed form
  have hfSP : (starB xs vs).calculate_force_vectors (planetB xp vp)
      = (G * 1 * 1 / (xp - xs) ^ 2, 0) :=
    (starB xs vs).force_1D_pos (planetB xp vp) rfl (by show xs < xp; linarith)
  have hidSP : ¬((starB xs vs).id = (planetB xp vp).id) := by
    show ¬((0:ℕ) = 1)
    decide
  have htfS : CelestialObject.total_force (starB xs vs) [planetB xp vp]
      = (G / (xp - xs) ^ 2, 0) := by
    rw [CelestialObject.total_force_cons, if_neg hidSP,
      CelestialObject.total_force_nil, hfSP]
    norm_num
  set S1 := (starB xs vs).update_position [planetB xp vp] with hS1def
  have hS1x : S1.x = stepXs xs vs xp := by
    rw [hS1def, CelestialObject.update_position_x, htfS]
    show xs + (vs + G / (xp - xs) ^ 2 / 1 * TIME_STEP) * TIME_STEP = stepXs xs vs xp
    unfold stepXs stepVs
    ring
  have hS1y : S1.y = 0 := by
    rw [hS1def, CelestialObject.update_position_y, htfS]
    show (0:ℝ) + ((0:ℝ) + (0:ℝ) / 1 * TIME_STEP) * TIME_STEP = 0
    ring
  have hS1xv : S1.x_vel = stepVs xs vs xp := by
    rw [hS1def, CelestialObject.update_position_x_vel, htfS]
    show vs + G / (xp - xs) ^ 2 / 1 * TIME_STEP = stepVs xs vs xp
    unfold stepVs
    ring
  have hS1yv : S1.y_vel = 0 := by
    rw [hS1def, CelestialObject.update_position_y_vel, htfS]
    show (0:ℝ) + (0:ℝ) / 1 * TIME_STEP = 0
    ring
  -- the planet update in closed form
  have hfPS : (planetB xp vp).calculate_force_vectors S1
      = (-(G * 1 * 1 / (xp - stepXs xs vs xp) ^ 2), 0) := by
    rw [(planetB xp vp).force_1D_neg S1 (by rw [hS1y]; exact rfl)
      (by rw [hS1x]; show stepXs xs vs xp < xp; linarith), hS1x]
    exact rfl
  have hidPS : ¬((planetB xp vp).id = S1.id) := by
    show ¬((1:ℕ) = 0)
    decide
  have htfP : CelestialObject.total_force (planetB xp vp) [S1, planetB xp vp]
      = (-(G / (xp - stepXs xs vs xp) ^ 2), 0) := by
    rw [CelestialObject.total_force_cons, if_neg hidPS,
      CelestialObject.total_force_cons, if_pos rfl,
      CelestialObject.total_force_nil, hfPS]
    norm_num
  have hP1x : ((planetB xp vp).update_position [S1, planetB xp vp]).x
      = stepXp xs vs xp vp := by
    rw [CelestialObject.update_position_x, htfP]
    show xp + (vp + -(G / (xp - stepXs xs vs xp) ^ 2) / 1 * TIME_STEP) * TIME_STEP = _
    unfold stepXp stepVp
    ring
  have hP1y : ((planetB xp vp).update_position [S1, planetB xp vp]).y = 0 := by
    rw [CelestialObject.update_position_y, htfP]
    show (0:ℝ) + ((0:ℝ) + (0:ℝ) / 1 * TIME_STEP) * TIME_STEP = 0
    ring
  have hP1xv : ((planetB xp vp).update_position [S1, planetB xp vp]).x_vel
      = stepVp xs vs xp vp := by
    rw [CelestialObject.update_position_x_vel, htfP]
    show vp + -(G / (xp - stepXs xs vs xp) ^ 2) / 1 * TIME_STEP = _
    unfold stepVp
    ring
  have hP1yv : ((planetB xp vp).update_position [S1, planetB xp vp]).y_vel = 0 := by
    rw [CelestialObject.update_position_y_vel, htfP]
    show (0:ℝ) + (0:ℝ) / 1 * TIME_STEP = 0
    ring
  refine ⟨?_, hxs1, hxs2, hvs1, hvs2, hxp1, hxp2, hvp2, hvp1, hcap⟩
  refine system_eq_of_fields rfl ?_ ?_
  · show S1 = starB (stepXs xs vs xp) (stepVs xs vs xp)
    exact celestial_eq_of_fields rfl rfl rfl rfl rfl hS1x hS1y hS1xv hS1yv
  · show [Planet.update_position ⟨planetB xp vp, orbit, dp⟩ S1 [S1, planetB xp vp]]
      = [⟨planetB (stepXp xs vs xp vp) (stepVp xs vs xp vp),
          orbit ++ [(stepXp xs vs xp vp, 0)],
          stepXp xs vs xp vp - stepXs xs vs xp⟩]
    refine congrArg (fun q => [q]) ?_
    refine planet_eq_of_fields ?_ ?_ ?_
    · show (planetB xp vp).update_position [S1, planetB xp vp]
        = planetB (stepXp xs vs xp vp) (stepVp xs vs xp vp)
      exact celestial_eq_of_fields rfl rfl rfl rfl rfl hP1x hP1y hP1xv hP1yv
    · show pruneOrbit
          (orbit ++ [(((planetB xp vp).update_position [S1, planetB xp vp]).x,
            ((planetB xp vp).update_position [S1, planetB xp vp]).y)])
          (pyInt (dist2D (((planetB xp vp).update_position [S1, planetB xp vp]).x,
              ((planetB xp vp).update_position [S1, planetB xp vp]).y)
              (S1.x, S1.y) * SCALE))
        = orbit ++ [(stepXp xs vs xp vp, 0)]
      rw [hP1x, hP1y, hS1x, hS1y, dist2D_horiz, abs_of_pos hdpos, hcap,
        pruneOrbit_zero]
    · show dist2D (((planetB xp vp).update_position [S1, planetB xp vp]).x,
            ((planetB xp vp).update_position [S1, planetB xp vp]).y) (S1.x, S1.y)
        = stepXp xs vs xp vp - stepXs xs vs xp
      rw [hP1x, hP1y, hS1x, hS1y, dist2D_horiz, abs_of_pos hdpos]

/-- Initial state of the trail-growth counterexample: star at 0, planet at
10^6 m, both at rest, empty trail. -/
def sysB0 : SolarSystem := sysB 0 0 1000000 0 [] 0

/-- Star position after step 1 of the sysB0 run. -/
def xsA : ℝ := stepXs 0 0 1000000

/-- Star velocity after step 1 of the sysB0 run. -/
def vsA : ℝ := stepVs 0 0 1000000

/-- Planet position after step 1 of the sysB0 run. -/
def xpA : ℝ := stepXp 0 0 1000000 0

/-- Planet velocity after step 1 of the sysB0 run. -/
def vpA : ℝ := stepVp 0 0 1000000 0

/-- Star position after step 2 of the sysB0 run. -/
def xsB2 : ℝ := stepXs xsA vsA xpA

/-- Star velocity after step 2 of the sysB0 run. -/
def vsB2 : ℝ := stepVs xsA vsA xpA

/-- Planet position after step 2 of the sysB0 run. -/
def xpB2 : ℝ := stepXp xsA vsA xpA vpA

/-- Planet velocity after step 2 of the sysB0 run. -/
def vpB2 : ℝ := stepVp xsA vsA xpA vpA

/-- Star position after step 3 of the sysB0 run. -/
def xsC3 : ℝ := stepXs xsB2 vsB2 xpB2

/-- Star velocity after step 3 of the sysB0 run. -/
def vsC3 : ℝ := stepVs xsB2 vsB2 xpB2

/-- Planet position after step 3 of the sysB0 run. -/
def xpC3 : ℝ := stepXp xsB2 vsB2 xpB2 vpB2

/-- Planet velocity after step 3 of the sysB0 run. -/
def vpC3 : ℝ := stepVp xsB2 vsB2 xpB2 vpB2

/-- C3 counterexample: starting from the empty-trail state sysB0, after k = 3
advance calls the planet's trail has 3 entries while the cap
int(distance_to_parent * SCALE) is 0 (the bodies stay about 10^6 m apart and
10^6 * SCALE < 1), so the trail length exceeds max(2, cap) = 2. -/
theorem trail_exceeds_growth_bound :
    (∀ p ∈ sysB0.planets, p.orbit = []) ∧
    ∃ q, (((sysB0.update_positions).update_positions).update_positions).planets
        = [q] ∧
      q.orbit.length = 3 ∧
      pyInt (q.distance_to_parent * SCALE) = 0 ∧
      ¬ (q.orbit.length ≤ max 2 (pyInt (q.distance_to_parent * SCALE)).toNat) := by
  obtain ⟨e1, a1, a2, a3, a4, a5, a6, a7, a8, a9⟩ :=
    sysB_step 0 0 1000000 0 [] 0 le_rfl (by norm_num) le_rfl (by norm_num)
      (by norm_num) le_rfl (by norm_num) le_rfl
  have E1 : (sysB 0 0 1000000 0 [] 0).update_positions
      = sysB xsA vsA xpA vpA ([] ++ [(xpA, 0)]) (xpA - xsA) := e1
  have A1 : 0 ≤ xsA := a1
  have A2 : xsA ≤ 0 + 1e-11 := a2
  have A3 : 0 ≤ vsA := a3
  have A4 : vsA ≤ 0 + 1e-17 := a4
  have A5 : 1000000 - 1e-11 ≤ xpA := a5
  have A6 : xpA ≤ 1000000 := a6
  have A7 : 0 - 1e-17 ≤ vpA := a7
  have A8 : vpA ≤ 0 := a8
  obtain ⟨e2, b1, b2, b3, b4, b5, b6, b7, b8, b9⟩ :=
    sysB_step xsA vsA xpA vpA ([] ++ [(xpA, 0)]) (xpA - xsA)
      (by linarith) (by linarith) (by linarith) (by linarith)
      (by linarith) (by linarith) (by linarith) (by linarith)
  have E2 : (sysB xsA vsA xpA vpA ([] ++ [(xpA, 0)]) (xpA - xsA)).update_positions
      = sysB xsB2 vsB2 xpB2 vpB2 ([] ++ [(xpA, 0)] ++ [(xpB2, 0)])
          (xpB2 - xsB2) := e2
  have B1 : xsA ≤ xsB2 := b1
  have B2 : xsB2 ≤ xsA + 1e-11 := b2
  have B3 : vsA ≤ vsB2 := b3
  have B4 : vsB2 ≤ vsA + 1e-17 := b4
  have B5 : xpA - 1e-11 ≤ xpB2 := b5
  have B6 : xpB2 ≤ xpA := b6
  have B7 : vpA - 1e-17 ≤ vpB2 := b7
  have B8 : vpB2 ≤ vpA := b8
  obtain ⟨e3, c1, c2, c3, c4, c5, c6, c7, c8, c9⟩ :=
    sysB_step xsB2 vsB2 xpB2 vpB2 ([] ++ [(xpA, 0)] ++ [(xpB2, 0)]) (xpB2 - xsB2)
      (by linarith) (by linarith) (by linarith) (by linarith)
      (by linarith) (by linarith) (by linarith) (by linarith)
  have E3 : (sysB xsB2 vsB2 xpB2 vpB2 ([] ++ [(xpA, 0)] ++ [(xpB2, 0)])
        (xpB2 - xsB2)).update_positions
      = sysB xsC3 vsC3 xpC3 vpC3 ([] ++ [(xpA, 0)] ++ [(xpB2, 0)] ++ [(xpC3, 0)])
          (xpC3 - xsC3) := e3
  have C9 : pyInt ((xpC3 - xsC3) * SCALE) = 0 := c9
  have EF : ((sysB0.update_positions).update_positions).update_positions
      = sysB xsC3 vsC3 xpC3 vpC3 ([] ++ [(xpA, 0)] ++ [(xpB2, 0)] ++ [(xpC3, 0)])
          (xpC3 - xsC3) := by
    rw [show sysB0 = sysB 0 0 1000000 0 [] 0 from rfl, E1, E2, E3]
  constructor
  · intro p hp
    have hpl : sysB0.planets = [⟨planetB 1000000 0, [], 0⟩] := rfl
    rw [hpl, List.mem_singleton] at hp
    rw [hp]
  · refine ⟨⟨planetB xpC3 vpC3, [] ++ [(xpA, 0)] ++ [(xpB2, 0)] ++ [(xpC3, 0)],
      xpC3 - xsC3⟩, ?_, by simp, C9, ?_⟩
    · rw [EF]
      rfl
    · show ¬ (([] ++ [(xpA, 0)] ++ [(xpB2, 0)] ++ [(xpC3, 0)]).length
        ≤ max 2 (pyInt ((xpC3 - xsC3) * SCALE)).toNat)
      rw [C9]
      simp

/-- C3 amended: from an empty-trail initial state, after k advance calls every
planet's trail length is at most k; and whenever the cap int(d*SCALE)
computed at the most recent step is at least 1, the trail length is also at
most that cap (hence at most max(2, cap)).  When that cap is 0 the pruning
slice is a no-op, so the max(2, cap) bound of the original claim can be
exceeded. -/
theorem trail_growth_bounds (s : SolarSystem) (k j : ℕ)
    (hempty : ∀ p ∈ s.planets, p.orbit = [])
    (hj : j < s.planets.length) :
    ∃ q, (SolarSystem.update_positions^[k] s).planets[j]? = some q ∧
      q.orbit.length ≤ k ∧
      (1 ≤ pyInt (q.distance_to_parent * SCALE) →
        (q.orbit.length : ℤ) ≤ pyInt (q.distance_to_parent * SCALE)) := by
  induction k with
  | zero =>
      obtain ⟨p, hp⟩ : ∃ p, s.planets[j]? = some p :=
        ⟨s.planets[j], List.getElem?_eq_getElem hj⟩
      have hmem : p ∈ s.planets := by
        obtain ⟨hlt, rfl⟩ := List.getElem?_eq_some_iff.mp hp
        exact List.getElem_mem hlt
      refine ⟨p, by simpa using hp, ?_, ?_⟩
      · rw [hempty p hmem]
        simp
      · intro h1
        rw [hempty p hmem]
        simp only [List.length_nil, Nat.cast_zero]
        omega
  | succ k ih =>
      obtain ⟨q, hq, hlen, hcap⟩ := ih
      have hstep := update_positions_getElem? (SolarSystem.update_positions^[k] s) j
      rw [hq] at hstep
      simp only [Option.map_some'] at hstep
      rw [Function.iterate_succ_apply']
      refine ⟨_, hstep, ?_, ?_⟩
      · calc (Planet.update_position q _ _).orbit.length
            ≤ (q.orbit ++ [_]).length := by
              rw [Planet.update_position_orbit]
              exact pruneOrbit_length_le _ _
          _ = q.orbit.length + 1 := by simp
          _ ≤ k + 1 := by omega
      · intro h1
        rw [Planet.update_position_orbit, Planet.update_position_distance]
        rw [Planet.update_position_distance] at h1
        exact pruneOrbit_length_le_cap _ _ h1

theorem trail_growth_bounds_witness :
    (∀ p ∈ wSys.planets, p.orbit = []) ∧ 0 < wSys.planets.length ∧
    ∃ q, (SolarSystem.update_positions^[1] wSys).planets[0]? = some q ∧
      q.orbit.length ≤ 1 ∧
      (1 ≤ pyInt (q.distance_to_parent * SCALE) →
        (q.orbit.length : ℤ) ≤ pyInt (q.distance_to_parent * SCALE)) :=
  have hempty : ∀ p ∈ wSys.planets, p.orbit = [] := by
    intro p hp
    have hpl : wSys.planets = [wPlanet] := rfl
    rw [hpl, List.mem_singleton] at hp
    rw [hp]
    rfl
  have hj : 0 < wSys.planets.length := by
    rw [show wSys.planets.length = 1 from rfl]
    norm_num
  ⟨hempty, hj, trail_growth_bounds wSys 1 0 hempty hj⟩

end PlanetSim
